import Mathlib

/-!
Verification development for the atlas repository.

The repository is a thin application skeleton around a third-party durable
execution SDK (Temporal).  The workflow and activity code under
`backend/workflows/dummy.py`, `backend/activities/dummy.py`, the workflow-id
construction in `backend/temporal/client.py` and the HTTP route in
`backend/api/routes/workflows/router.py` are embedded from the source.  The
orchestration core itself (retry policy engine, activity retry loop, replay,
history journal) is not part of the repository sources — it lives inside the
external SDK — so those parts are modelled from the specification document,
each such definition carrying a `Modelled from the spec:` doc comment.
-/

/- ----------------------------------------------------------------- -/
/- Retry Policy Engine (spec §4.2) -/
/- ----------------------------------------------------------------- -/

/-- Modelled from the spec: the `RetryPolicy` record of the data model
(§3), `{initial_interval, backoff_coefficient, maximum_interval,
maximum_attempts (0 = unlimited)}`.  The engine holding it is absent from
`src/` (it lives in the external Temporal SDK); intervals are rationals
measured in seconds. -/
structure RetryPolicy where
  initial_interval : ℚ
  backoff_coefficient : ℚ
  maximum_interval : ℚ
  maximum_attempts : ℕ
deriving DecidableEq

/-- Outcome of a retry decision: wait `d` seconds and retry, or give up. -/
inductive RetryDecision where
  | delay (d : ℚ)
  | giveUp
deriving DecidableEq

/-- Modelled from the spec: the Retry Policy Engine's
`next_delay(policy, attempt, …) → Duration | GiveUp` (§4.2), absent from
`src/`.  GiveUp when `maximum_attempts > 0 AND attempt ≥ maximum_attempts`,
or when the failure is flagged non-retryable by the caller; otherwise the
delay is `min(initial_interval × backoff_coefficient^(attempt-1),
maximum_interval)`. -/
def next_delay (p : RetryPolicy) (attempt : ℕ) (retryable : Bool) : RetryDecision :=
  if ¬retryable ∨ (0 < p.maximum_attempts ∧ p.maximum_attempts ≤ attempt) then
    RetryDecision.giveUp
  else
    RetryDecision.delay
      (min (p.initial_interval * p.backoff_coefficient ^ (attempt - 1)) p.maximum_interval)

/- ----------------------------------------------------------------- -/
/- Activities (backend/activities/dummy.py) -/
/- ----------------------------------------------------------------- -/

/-- Embeds `echo_message` (backend/activities/dummy.py): returns
`f"ECHO: {message}"`. -/
def echo_message (message : String) : String :=
  "ECHO: " ++ message

/-- Embeds `simulate_work` (backend/activities/dummy.py): sleeps and returns
`f"Work completed after {duration_seconds} seconds"`. -/
def simulate_work (duration_seconds : ℕ) : String :=
  "Work completed after " ++ toString duration_seconds ++ " seconds"

/- `get_current_time` reads the wall clock, so its value is supplied by the
environment (`DummyEnv.now` below), not computed here. -/

/- ----------------------------------------------------------------- -/
/- Activity execution with retries (spec §4.1-§4.3) -/
/- ----------------------------------------------------------------- -/

/-- Modelled from the spec: `ActivityError{message, retryable}` (§7),
the failure value an activity attempt reports; absent from `src/`. -/
structure ActivityError where
  message : String
  retryable : Bool
deriving DecidableEq

/-- The fate of one activity attempt, as decided by the outside world:
the handler finishes normally, or this attempt fails with a message and a
retryable flag. -/
inductive AttemptFate where
  | ok
  | fail (msg : String) (retryable : Bool)
deriving DecidableEq

/-- The recorded final resolution of one scheduled activity: the value it
completed with, or the terminal `ActivityError`, each together with the
number of the attempt that resolved it (attempts count from 1). -/
inductive Resolution where
  | ok (value : String) (attempts : ℕ)
  | err (e : ActivityError) (attempts : ℕ)
deriving DecidableEq

/-- Result of driving an activity against a finite trace of attempt fates:
resolved, or still pending (the trace ended without a resolution). -/
inductive ActOutcome where
  | resolved (r : Resolution)
  | pending
deriving DecidableEq

/-- Modelled from the spec: the Activity Executor / Retry Policy Engine loop
(§4.2-§4.3, §3 `ActivityTask`), absent from `src/`.  Starting at `attempt`,
each fate in the trace is one attempt: success resolves with `value`;
a failure consults `next_delay` and either retries as `attempt+1` or becomes
the terminal `ActivityError`. -/
def runAttempts (p : RetryPolicy) (value : String) : ℕ → List AttemptFate → ActOutcome
  | _, [] => ActOutcome.pending
  | attempt, f :: rest =>
    match f with
    | AttemptFate.ok => ActOutcome.resolved (Resolution.ok value attempt)
    | AttemptFate.fail msg r =>
      match next_delay p attempt r with
      | RetryDecision.giveUp => ActOutcome.resolved (Resolution.err ⟨msg, r⟩ attempt)
      | RetryDecision.delay _ => runAttempts p value (attempt + 1) rest

/- ----------------------------------------------------------------- -/
/- Retry policies attached in DummyWorkflow.run (backend/workflows/dummy.py) -/
/- ----------------------------------------------------------------- -/

/-- The policy on the `get_current_time` call (dummy.py lines 46-49):
`maximum_attempts=3, initial_interval=1s`; backoff coefficient 2 and
maximum interval 100×initial are the SDK defaults, left unset there. -/
def current_time_retry_policy : RetryPolicy :=
  ⟨1, 2, 100, 3⟩

/-- The policy on the `echo_message` call (dummy.py lines 61-64):
`maximum_attempts=3, initial_interval=1s`, SDK defaults otherwise. -/
def echo_retry_policy : RetryPolicy :=
  ⟨1, 2, 100, 3⟩

/-- The policy on the `simulate_work` call (dummy.py lines 73-77):
`maximum_attempts=2, initial_interval=1s, maximum_interval=10s`, SDK
default backoff coefficient 2. -/
def simulate_work_retry_policy : RetryPolicy :=
  ⟨1, 2, 10, 2⟩

/- ----------------------------------------------------------------- -/
/- DummyWorkflow.run (backend/workflows/dummy.py lines 30-88) -/
/- ----------------------------------------------------------------- -/

/-- Argument of a scheduled activity: none, a string, or a natural. -/
inductive ActArg where
  | noArg
  | strArg (s : String)
  | natArg (n : ℕ)
deriving DecidableEq

/-- The dict `DummyWorkflow.run` returns (dummy.py lines 83-88). -/
structure DummyResult where
  start_time : String
  echo_result : Option String
  work_result : String
  workflow_id : String
deriving DecidableEq

/-- A command the workflow execution context emits on behalf of the
workflow code (spec §4.1): schedule an activity, complete, or fail. -/
inductive Command where
  | scheduleActivity (name : String) (arg : ActArg)
  | completeWorkflow (r : DummyResult)
  | failWorkflow (e : ActivityError)
deriving DecidableEq

/-- Status of a workflow run: still running (suspended on an activity),
completed with a result, or failed with the propagated activity error. -/
inductive RunStatus where
  | running
  | completed (r : DummyResult)
  | failed (e : ActivityError)
deriving DecidableEq

/-- What one forward execution produced: the command sequence, the final
status, and the recorded history of activity resolutions in issue order. -/
structure RunOutput where
  commands : List Command
  status : RunStatus
  history : List Resolution
deriving DecidableEq

/-- Python truthiness of the `message: str | None` parameter: `None` and
the empty string are falsy (the `if message:` branch in dummy.py line 56
and `message or 'test'` in router.py line 31). -/
def truthy : Option String → Bool
  | none => false
  | some s => s ≠ ""

/-- Environment a forward run of `DummyWorkflow` executes against: the
wall-clock string `get_current_time` would return, and the trace of attempt
fates of each of the three activity calls. -/
structure DummyEnv where
  now : String
  timeFates : List AttemptFate
  echoFates : List AttemptFate
  workFates : List AttemptFate
deriving DecidableEq

/-- Modelled from the spec: one `execute_activity` step of the workflow
execution context (§4.1), absent from `src/`.  It appends the
schedule command, drives the attempts, and on resolution either records the
error (the uncaught raise makes the run fail) or feeds the value to the
continuation `k`; an unresolved trace leaves the run suspended. -/
def actStep (name : String) (arg : ActArg) (p : RetryPolicy) (value : String)
    (fates : List AttemptFate) (k : String → ℕ → RunOutput) : RunOutput :=
  match runAttempts p value 1 fates with
  | ActOutcome.pending =>
    ⟨[Command.scheduleActivity name arg], RunStatus.running, []⟩
  | ActOutcome.resolved (Resolution.err e n) =>
    ⟨[Command.scheduleActivity name arg, Command.failWorkflow e],
      RunStatus.failed e, [Resolution.err e n]⟩
  | ActOutcome.resolved (Resolution.ok v n) =>
    let out := k v n
    ⟨Command.scheduleActivity name arg :: out.commands, out.status,
      Resolution.ok v n :: out.history⟩

/-- Embeds the body of `DummyWorkflow.run` (dummy.py lines 30-88), executing
forward against `env`: step 1 `get_current_time`, step 2 `echo_message`
only if `message` is truthy, step 3 `simulate_work` with duration 3, then
return the result dict.  `wfId` plays `workflow.info().workflow_id`. -/
def dummyForward (wfId : String) (message : Option String) (env : DummyEnv) : RunOutput :=
  actStep "get_current_time" ActArg.noArg current_time_retry_policy env.now env.timeFates
    (fun t _ =>
      if truthy message then
        let m := message.getD ""
        actStep "echo_message" (ActArg.strArg m) echo_retry_policy (echo_message m)
          env.echoFates (fun e _ =>
            actStep "simulate_work" (ActArg.natArg 3) simulate_work_retry_policy
              (simulate_work 3) env.workFates (fun w _ =>
                let r : DummyResult := ⟨t, some e, w, wfId⟩
                ⟨[Command.completeWorkflow r], RunStatus.completed r, []⟩))
      else
        actStep "simulate_work" (ActArg.natArg 3) simulate_work_retry_policy
          (simulate_work 3) env.workFates (fun w _ =>
            let r : DummyResult := ⟨t, none, w, wfId⟩
            ⟨[Command.completeWorkflow r], RunStatus.completed r, []⟩))

/-- Modelled from the spec: one replayed activity await of `resume`
(§4.1), absent from `src/`.  The recorded resolution at the cursor is fed
back into the awaited call without re-executing the handler; an exhausted
history leaves the run suspended at this await. -/
def replayAct (name : String) (arg : ActArg) (hist : List Resolution)
    (k : String → List Resolution → List Command × RunStatus) :
    List Command × RunStatus :=
  match hist with
  | [] => ([Command.scheduleActivity name arg], RunStatus.running)
  | Resolution.err e _ :: _ =>
    ([Command.scheduleActivity name arg, Command.failWorkflow e], RunStatus.failed e)
  | Resolution.ok v _ :: rest =>
    let out := k v rest
    (Command.scheduleActivity name arg :: out.1, out.2)

/-- Replays `DummyWorkflow.run` against a recorded history of activity
resolutions (spec §4.1 `resume`): the same branching as `dummyForward`, but
every awaited value is read from the history instead of the handlers. -/
def dummyReplay (wfId : String) (message : Option String) (hist : List Resolution) :
    List Command × RunStatus :=
  replayAct "get_current_time" ActArg.noArg hist (fun t h1 =>
    if truthy message then
      replayAct "echo_message" (ActArg.strArg (message.getD "")) h1 (fun e h2 =>
        replayAct "simulate_work" (ActArg.natArg 3) h2 (fun w _ =>
          let r : DummyResult := ⟨t, some e, w, wfId⟩
          ([Command.completeWorkflow r], RunStatus.completed r)))
    else
      replayAct "simulate_work" (ActArg.natArg 3) h1 (fun w _ =>
        let r : DummyResult := ⟨t, none, w, wfId⟩
        ([Command.completeWorkflow r], RunStatus.completed r)))

/- ----------------------------------------------------------------- -/
/- ChainedDummyWorkflow.run (backend/workflows/dummy.py lines 95-123) -/
/- ----------------------------------------------------------------- -/

/-- Modelled from the spec: `ChildWorkflowError` (§4.1), the failure a
child workflow propagates to its parent; absent from `src/`.  Carries the
child's workflow id and the activity error that failed the child run. -/
structure ChildWorkflowError where
  childId : String
  cause : ActivityError
deriving DecidableEq

/-- A command `ChainedDummyWorkflow` emits: start a child `DummyWorkflow`
with a given id and message, complete with the collected child results, or
fail with the propagated child error. -/
inductive ChainCommand where
  | startChild (id : String) (message : String)
  | completeWorkflow (rs : List DummyResult)
  | failWorkflow (e : ChildWorkflowError)
deriving DecidableEq

/-- Status of a `ChainedDummyWorkflow` run. -/
inductive ChainStatus where
  | running
  | completed (rs : List DummyResult)
  | failed (e : ChildWorkflowError)
deriving DecidableEq

/-- Output of a `ChainedDummyWorkflow` forward execution. -/
structure ChainOutput where
  commands : List ChainCommand
  status : ChainStatus
deriving DecidableEq

/-- The child workflow id used at dummy.py line 115:
`f"{workflow.info().workflow_id}-child-{i}"`. -/
def childWorkflowId (wfId : String) (i : ℕ) : String :=
  wfId ++ "-child-" ++ toString i

/-- Embeds the loop body of `ChainedDummyWorkflow.run` (dummy.py lines
107-123), generalized over the loop counter `i` and the results
accumulated so far.  Each message starts one child `DummyWorkflow`
(executed against its own environment from `envs`) and is awaited before
the next; an exhausted environment list leaves the run suspended on the
started child; a failed child fails the parent. -/
def chainedGo (wfId : String) : ℕ → List DummyResult → List String → List DummyEnv →
    ChainOutput
  | _, acc, [], _ =>
    ⟨[ChainCommand.completeWorkflow acc.reverse], ChainStatus.completed acc.reverse⟩
  | i, _, m :: _, [] =>
    ⟨[ChainCommand.startChild (childWorkflowId wfId i) m], ChainStatus.running⟩
  | i, acc, m :: ms, env :: envTail =>
    match (dummyForward (childWorkflowId wfId i) (some m) env).status with
    | RunStatus.running =>
      ⟨[ChainCommand.startChild (childWorkflowId wfId i) m], ChainStatus.running⟩
    | RunStatus.failed e =>
      ⟨[ChainCommand.startChild (childWorkflowId wfId i) m,
          ChainCommand.failWorkflow ⟨childWorkflowId wfId i, e⟩],
        ChainStatus.failed ⟨childWorkflowId wfId i, e⟩⟩
    | RunStatus.completed r =>
      ⟨ChainCommand.startChild (childWorkflowId wfId i) m ::
          (chainedGo wfId (i + 1) (r :: acc) ms envTail).commands,
        (chainedGo wfId (i + 1) (r :: acc) ms envTail).status⟩

/-- Embeds `ChainedDummyWorkflow.run` (dummy.py lines 95-123): process the
messages in order from loop counter 0 with an empty result list. -/
def chainedForward (wfId : String) (messages : List String) (envs : List DummyEnv) :
    ChainOutput :=
  chainedGo wfId 0 [] messages envs

/-- The expected sequence of start-child commands for `messages`, starting
at loop counter `i`: one per message, in list order, child `k` (0-based
within the whole run) getting id `wfId ++ "-child-" ++ toString k`. -/
def startChildCmds (wfId : String) : ℕ → List String → List ChainCommand
  | _, [] => []
  | i, m :: ms =>
    ChainCommand.startChild (childWorkflowId wfId i) m :: startChildCmds wfId (i + 1) ms

/- ----------------------------------------------------------------- -/
/- History Journal (spec §4.5) -/
/- ----------------------------------------------------------------- -/

/-- Modelled from the spec: the History Journal state (§4.5), absent from
`src/`.  `seqCounter r` is the last sequence number handed out for run
`r` (0 before any append); `log` records, oldest first, each applied
append as the pair (run_id, assigned sequence number). -/
structure Journal where
  seqCounter : String → ℕ
  log : List (String × ℕ)

/-- Modelled from the spec: `append(run_id, event) → sequence_number`
(§4.5), absent from `src/`.  One atomic append: the run's counter is
incremented and the new value is the assigned sequence number. -/
def journalAppend (j : Journal) (run : String) : Journal × ℕ :=
  let s := j.seqCounter run + 1
  (⟨fun r => if r = run then s else j.seqCounter r, j.log ++ [(run, s)]⟩, s)

/-- Applies a serialized interleaving of append calls (each element one
atomic `journalAppend` for the named run) to a journal state. -/
def applyAppends (j : Journal) : List String → Journal
  | [] => j
  | run :: ops => applyAppends (journalAppend j run).1 ops

/-- The sequence numbers assigned to run `r`, in log (application) order. -/
def seqsFor (r : String) (log : List (String × ℕ)) : List ℕ :=
  log.filterMap (fun p => if p.1 = r then some p.2 else none)

/-- The journal with no events and all counters at 0. -/
def emptyJournal : Journal :=
  ⟨fun _ => 0, []⟩

/- ----------------------------------------------------------------- -/
/- Workflow ids: backend/temporal/client.py and the /dummy route -/
/- ----------------------------------------------------------------- -/

/-- Embeds `get_workflow_id_prefix` (client.py lines 56-64):
`f"atlas-{env}"`. -/
def get_workflow_id_prefix (env : String) : String :=
  "atlas-" ++ env

/-- Embeds the workflow-id construction of `start_workflow` (client.py
lines 88-90): `f"{get_workflow_id_prefix()}-{workflow_type.__name__}"`,
then `-{id_suffix}` appended when `id_suffix` is non-empty. -/
def start_workflow_id (env : String) (typeName : String) (id_suffix : String) : String :=
  let wid := get_workflow_id_prefix env ++ "-" ++ typeName
  if id_suffix ≠ "" then wid ++ "-" ++ id_suffix else wid

/-- Embeds the `workflow_id` computed by `execute_dummy_workflow`
(router.py line 31): `f"dummy-workflow-{message or 'test'}"`; this value
is returned in the HTTP response and passed to `start_workflow` as
`id_suffix`. -/
def dummy_route_workflow_id (message : Option String) : String :=
  "dummy-workflow-" ++ (if truthy message then message.getD "" else "test")

/- ----------------------------------------------------------------- -/
/- Theorems -/
/- ----------------------------------------------------------------- -/

/-- C2 counterexample: the claim "when backoff_coefficient = 1 the delay is
constant equal to initial_interval for every attempt" fails for the policy
`{initial_interval = 5, backoff_coefficient = 1, maximum_interval = 2,
maximum_attempts = 0}` at attempt 1: the engine returns delay 2, the
maximum interval, not the initial interval 5. -/
theorem next_delay_coeff_one_counterexample :
    next_delay ⟨5, 1, 2, 0⟩ 1 true = RetryDecision.delay 2 ∧ (2 : ℚ) ≠ 5 := by
  constructor
  · unfold next_delay
    norm_num
  · norm_num

/-- C2 (amended): whenever `next_delay` does not give up, the returned
delay is `min(initial_interval × backoff_coefficient^(attempt-1),
maximum_interval)`; in particular, when the backoff coefficient is 1 the
delay is the constant `min(initial_interval, maximum_interval)`, equal to
`initial_interval` whenever `initial_interval ≤ maximum_interval`. -/
theorem next_delay_formula (p : RetryPolicy) (n : ℕ) (r : Bool) (d : ℚ)
    (_hn : 1 ≤ n) (h : next_delay p n r = RetryDecision.delay d) :
    d = min (p.initial_interval * p.backoff_coefficient ^ (n - 1)) p.maximum_interval ∧
    (p.backoff_coefficient = 1 → d = min p.initial_interval p.maximum_interval) ∧
    (p.backoff_coefficient = 1 → p.initial_interval ≤ p.maximum_interval →
      d = p.initial_interval) := by
  unfold next_delay at h
  split at h
  · exact absurd h (by simp)
  · have hd : d = min (p.initial_interval * p.backoff_coefficient ^ (n - 1))
        p.maximum_interval := by
      exact (RetryDecision.delay.injEq _ _).mp h.symm
    refine ⟨hd, ?_, ?_⟩
    · intro h1
      rw [hd, h1, one_pow, mul_one]
    · intro h1 h2
      rw [hd, h1, one_pow, mul_one]
      exact min_eq_left h2

/-- Witness for C2 at the concrete policy of the `get_current_time` call
and attempt 1: the delay there is 1 second. -/
theorem next_delay_formula_witness :
    (1 : ℚ) = min (current_time_retry_policy.initial_interval *
        current_time_retry_policy.backoff_coefficient ^ (1 - 1))
      current_time_retry_policy.maximum_interval ∧
    (current_time_retry_policy.backoff_coefficient = 1 →
      (1 : ℚ) = min current_time_retry_policy.initial_interval
        current_time_retry_policy.maximum_interval) ∧
    (current_time_retry_policy.backoff_coefficient = 1 →
      current_time_retry_policy.initial_interval ≤
        current_time_retry_policy.maximum_interval →
      (1 : ℚ) = current_time_retry_policy.initial_interval) :=
  next_delay_formula current_time_retry_policy 1 true 1 (by norm_num)
    (by unfold next_delay current_time_retry_policy; norm_num)

/-- C3: for a retryable failure, `next_delay` gives up exactly when
`maximum_attempts > 0` and the attempt number has reached
`maximum_attempts`; hence `maximum_attempts = 1` gives up already on the
first attempt (never retries), and `maximum_attempts = 0` never gives up,
no matter how many attempts have failed. -/
theorem next_delay_giveup_iff (p : RetryPolicy) (n : ℕ) :
    (next_delay p n true = RetryDecision.giveUp ↔
      0 < p.maximum_attempts ∧ p.maximum_attempts ≤ n) ∧
    (p.maximum_attempts = 1 → next_delay p 1 true = RetryDecision.giveUp) ∧
    (p.maximum_attempts = 0 → next_delay p n true ≠ RetryDecision.giveUp) := by
  refine ⟨?_, ?_, ?_⟩
  · unfold next_delay
    split
    · rename_i hc
      simp only [Bool.not_eq_true] at hc
      rcases hc with hc | hc
      · exact absurd hc (by simp)
      · simp [hc]
    · rename_i hc
      simp only [not_or] at hc
      simp [hc.2]
  · intro h1
    unfold next_delay
    simp [h1]
  · intro h0
    unfold next_delay
    simp [h0]

/-- Witness for C3 at `maximum_attempts = 1`, attempt 1: the engine gives
up (never retries). -/
theorem next_delay_giveup_iff_witness :
    next_delay ⟨1, 2, 10, 1⟩ 1 true = RetryDecision.giveUp :=
  (next_delay_giveup_iff ⟨1, 2, 10, 1⟩ 1).2.1 rfl

/-- Reduction of `actStep` when the attempts resolve successfully. -/
lemma actStep_ok {p : RetryPolicy} {value v : String} {fates : List AttemptFate} {n : ℕ}
    (name : String) (arg : ActArg) (k : String → ℕ → RunOutput)
    (h : runAttempts p value 1 fates = ActOutcome.resolved (Resolution.ok v n)) :
    actStep name arg p value fates k =
      ⟨Command.scheduleActivity name arg :: (k v n).commands, (k v n).status,
        Resolution.ok v n :: (k v n).history⟩ := by
  unfold actStep
  rw [h]

/-- Reduction of `actStep` when the attempts resolve with a terminal
error. -/
lemma actStep_err {p : RetryPolicy} {value : String} {fates : List AttemptFate}
    {e : ActivityError} {n : ℕ}
    (name : String) (arg : ActArg) (k : String → ℕ → RunOutput)
    (h : runAttempts p value 1 fates = ActOutcome.resolved (Resolution.err e n)) :
    actStep name arg p value fates k =
      ⟨[Command.scheduleActivity name arg, Command.failWorkflow e],
        RunStatus.failed e, [Resolution.err e n]⟩ := by
  unfold actStep
  rw [h]

/-- Reduction of `actStep` when the attempt trace gives no resolution. -/
lemma actStep_pending {p : RetryPolicy} {value : String} {fates : List AttemptFate}
    (name : String) (arg : ActArg) (k : String → ℕ → RunOutput)
    (h : runAttempts p value 1 fates = ActOutcome.pending) :
    actStep name arg p value fates k =
      ⟨[Command.scheduleActivity name arg], RunStatus.running, []⟩ := by
  unfold actStep
  rw [h]

/-- C1: a run of `DummyWorkflow.run` with message "hi" in which all three
activities succeed terminates COMPLETED; the result's `echo_result` is
"ECHO: hi" (and `echo_message m = "ECHO: " ++ m`), its `start_time` is the
value `get_current_time` returned, and its `work_result` is the value of
`simulate_work` called with duration 3. -/
theorem dummy_scenario_A (wfId : String) (env : DummyEnv) (nt ne nw : ℕ)
    (ht : runAttempts current_time_retry_policy env.now 1 env.timeFates =
      ActOutcome.resolved (Resolution.ok env.now nt))
    (he : runAttempts echo_retry_policy (echo_message "hi") 1 env.echoFates =
      ActOutcome.resolved (Resolution.ok (echo_message "hi") ne))
    (hw : runAttempts simulate_work_retry_policy (simulate_work 3) 1 env.workFates =
      ActOutcome.resolved (Resolution.ok (simulate_work 3) nw)) :
    (dummyForward wfId (some "hi") env).status =
      RunStatus.completed ⟨env.now, some "ECHO: hi", simulate_work 3, wfId⟩ ∧
    (∀ m, echo_message m = "ECHO: " ++ m) := by
  refine ⟨?_, fun m => rfl⟩
  unfold dummyForward
  rw [actStep_ok _ _ _ ht]
  simp only [truthy]
  rw [if_pos (by simp)]
  simp only [Option.getD_some]
  rw [actStep_ok _ _ _ he]
  rw [actStep_ok _ _ _ hw]
  rfl

/-- Witness for C1: a concrete environment where each activity succeeds on
its first attempt. -/
theorem dummy_scenario_A_witness :
    (dummyForward "wf" (some "hi")
        ⟨"t0", [AttemptFate.ok], [AttemptFate.ok], [AttemptFate.ok]⟩).status =
      RunStatus.completed ⟨"t0", some "ECHO: hi", simulate_work 3, "wf"⟩ ∧
    (∀ m, echo_message m = "ECHO: " ++ m) :=
  dummy_scenario_A "wf" ⟨"t0", [AttemptFate.ok], [AttemptFate.ok], [AttemptFate.ok]⟩
    1 1 1 rfl rfl rfl

/-- The `simulate_work` policy (`maximum_attempts = 2`) drives a trace of
two retryable failures to the terminal error of attempt 2: attempt 1 is
granted a retry, attempt 2 reaches the budget and gives up. -/
lemma runAttempts_work_two_fails (v m1 m2 : String) (rest : List AttemptFate) :
    runAttempts simulate_work_retry_policy v 1
        (AttemptFate.fail m1 true :: AttemptFate.fail m2 true :: rest) =
      ActOutcome.resolved (Resolution.err ⟨m2, true⟩ 2) := by
  simp [runAttempts, next_delay, simulate_work_retry_policy]

/-- The `simulate_work` policy drives a trace of one retryable failure
followed by a success to a successful resolution at attempt 2. -/
lemma runAttempts_work_fail_then_ok (v m1 : String) (rest : List AttemptFate) :
    runAttempts simulate_work_retry_policy v 1
        (AttemptFate.fail m1 true :: AttemptFate.ok :: rest) =
      ActOutcome.resolved (Resolution.ok v 2) := by
  simp [runAttempts, next_delay, simulate_work_retry_policy]

/-- C5: when `simulate_work` fails with a retryable error on both attempts
allowed by its `maximum_attempts = 2` policy (and the preceding activities
succeed), the run does not terminate COMPLETED: it terminates failed,
carrying the `ActivityError` of the last attempt. -/
theorem dummy_scenario_C (wfId : String) (message : Option String) (env : DummyEnv)
    (nt : ℕ) (m1 m2 : String) (rest : List AttemptFate)
    (ht : runAttempts current_time_retry_policy env.now 1 env.timeFates =
      ActOutcome.resolved (Resolution.ok env.now nt))
    (he : truthy message = true → ∃ n,
      runAttempts echo_retry_policy (echo_message (message.getD "")) 1 env.echoFates =
        ActOutcome.resolved (Resolution.ok (echo_message (message.getD "")) n))
    (hw : env.workFates = AttemptFate.fail m1 true :: AttemptFate.fail m2 true :: rest) :
    (dummyForward wfId message env).status = RunStatus.failed ⟨m2, true⟩ ∧
    ∀ r, (dummyForward wfId message env).status ≠ RunStatus.completed r := by
  have hwr : runAttempts simulate_work_retry_policy (simulate_work 3) 1 env.workFates =
      ActOutcome.resolved (Resolution.err ⟨m2, true⟩ 2) := by
    rw [hw]
    exact runAttempts_work_two_fails _ m1 m2 rest
  have key : (dummyForward wfId message env).status = RunStatus.failed ⟨m2, true⟩ := by
    unfold dummyForward
    rw [actStep_ok _ _ _ ht]
    by_cases hm : truthy message = true
    · rw [if_pos hm]
      obtain ⟨n, hen⟩ := he hm
      rw [actStep_ok _ _ _ hen, actStep_err _ _ _ hwr]
    · rw [if_neg hm, actStep_err _ _ _ hwr]
  refine ⟨key, fun r hr => ?_⟩
  rw [key] at hr
  exact RunStatus.noConfusion hr

/-- Witness for C5: concrete run with no message, a first-attempt success
of `get_current_time` and two retryable `simulate_work` failures. -/
theorem dummy_scenario_C_witness :
    (dummyForward "wf" none
        ⟨"t0", [AttemptFate.ok], [],
          [AttemptFate.fail "b1" true, AttemptFate.fail "b2" true]⟩).status =
      RunStatus.failed ⟨"b2", true⟩ ∧
    ∀ r, (dummyForward "wf" none
        ⟨"t0", [AttemptFate.ok], [],
          [AttemptFate.fail "b1" true, AttemptFate.fail "b2" true]⟩).status ≠
      RunStatus.completed r :=
  dummy_scenario_C "wf" none
    ⟨"t0", [AttemptFate.ok], [], [AttemptFate.fail "b1" true, AttemptFate.fail "b2" true]⟩
    1 "b1" "b2" [] rfl (by simp [truthy]) rfl

/-- C4 counterexample: the retry policy the code attaches to the
`simulate_work` call has `maximum_attempts = 2`, not 3, so a run whose
`simulate_work` attempts would fail twice and then succeed never reaches
attempt 3: with the concrete trace (fail, fail, ok) the run terminates
failed, not COMPLETED. -/
theorem dummy_scenario_B_counterexample :
    simulate_work_retry_policy.maximum_attempts = 2 ∧
    simulate_work_retry_policy.maximum_attempts ≠ 3 ∧
    (dummyForward "wf" none
        ⟨"t0", [AttemptFate.ok], [],
          [AttemptFate.fail "e" true, AttemptFate.fail "e" true, AttemptFate.ok]⟩).status =
      RunStatus.failed ⟨"e", true⟩ := by
  refine ⟨rfl, by decide, ?_⟩
  unfold dummyForward
  rw [actStep_ok _ _ _ (by rfl : runAttempts current_time_retry_policy "t0" 1
    [AttemptFate.ok] = ActOutcome.resolved (Resolution.ok "t0" 1))]
  rw [if_neg (by simp [truthy])]
  rw [actStep_err _ _ _ (runAttempts_work_two_fails (simulate_work 3) "e" "e" [AttemptFate.ok])]

/-- C4 (amended): the `simulate_work` call's policy has
`maximum_attempts = 2`; if `simulate_work` fails once with a retryable
error and then succeeds on attempt 2 (and the preceding activities
succeed), the run still terminates COMPLETED and the recorded attempt
count of the `simulate_work` resolution is 2. -/
theorem dummy_scenario_B_amended (wfId : String) (message : Option String) (env : DummyEnv)
    (nt : ℕ) (m1 : String) (rest : List AttemptFate)
    (ht : runAttempts current_time_retry_policy env.now 1 env.timeFates =
      ActOutcome.resolved (Resolution.ok env.now nt))
    (he : truthy message = true → ∃ n,
      runAttempts echo_retry_policy (echo_message (message.getD "")) 1 env.echoFates =
        ActOutcome.resolved (Resolution.ok (echo_message (message.getD "")) n))
    (hw : env.workFates = AttemptFate.fail m1 true :: AttemptFate.ok :: rest) :
    simulate_work_retry_policy.maximum_attempts = 2 ∧
    ∃ r, (dummyForward wfId message env).status = RunStatus.completed r ∧
      (dummyForward wfId message env).history.getLast? =
        some (Resolution.ok (simulate_work 3) 2) := by
  have hwr : runAttempts simulate_work_retry_policy (simulate_work 3) 1 env.workFates =
      ActOutcome.resolved (Resolution.ok (simulate_work 3) 2) := by
    rw [hw]
    exact runAttempts_work_fail_then_ok _ m1 rest
  refine ⟨rfl, ?_⟩
  unfold dummyForward
  rw [actStep_ok _ _ _ ht]
  by_cases hm : truthy message = true
  · rw [if_pos hm]
    obtain ⟨n, hen⟩ := he hm
    rw [actStep_ok _ _ _ hen, actStep_ok _ _ _ hwr]
    exact ⟨_, rfl, rfl⟩
  · rw [if_neg hm, actStep_ok _ _ _ hwr]
    exact ⟨_, rfl, rfl⟩

/-- Witness for C4 (amended): concrete run where `simulate_work` fails on
attempt 1 and succeeds on attempt 2. -/
theorem dummy_scenario_B_amended_witness :
    simulate_work_retry_policy.maximum_attempts = 2 ∧
    ∃ r, (dummyForward "wf" none
        ⟨"t0", [AttemptFate.ok], [], [AttemptFate.fail "e" true, AttemptFate.ok]⟩).status =
      RunStatus.completed r ∧
      (dummyForward "wf" none
        ⟨"t0", [AttemptFate.ok], [], [AttemptFate.fail "e" true, AttemptFate.ok]⟩).history.getLast? =
        some (Resolution.ok (simulate_work 3) 2) :=
  dummy_scenario_B_amended "wf" none
    ⟨"t0", [AttemptFate.ok], [], [AttemptFate.fail "e" true, AttemptFate.ok]⟩
    1 "e" [] rfl (by simp [truthy]) rfl

/-- C9: a run of `DummyWorkflow.run` with message `None` is literally the
same execution as one with the empty string (the workflow branches on the
truthiness of `message`): no `echo_message` activity is ever scheduled,
and a completed run's `echo_result` field is `None`. -/
theorem dummy_message_falsy (wfId : String) (env : DummyEnv) :
    dummyForward wfId none env = dummyForward wfId (some "") env ∧
    (∀ a, Command.scheduleActivity "echo_message" a ∉
      (dummyForward wfId none env).commands) ∧
    (∀ r, (dummyForward wfId none env).status = RunStatus.completed r →
      r.echo_result = none) := by
  refine ⟨?_, ?_, ?_⟩
  · unfold dummyForward
    simp [truthy]
  · intro a
    unfold dummyForward
    simp only [truthy, Bool.false_eq_true, if_false]
    rcases h1 : runAttempts current_time_retry_policy env.now 1 env.timeFates with
      (⟨v, n⟩ | ⟨e, n⟩) | _
    · rw [actStep_ok _ _ _ h1]
      rcases h2 : runAttempts simulate_work_retry_policy (simulate_work 3) 1 env.workFates
        with (⟨w, n2⟩ | ⟨e2, n2⟩) | _
      · rw [actStep_ok _ _ _ h2]
        simp
      · rw [actStep_err _ _ _ h2]
        simp
      · rw [actStep_pending _ _ _ h2]
        simp
    · rw [actStep_err _ _ _ h1]
      simp
    · rw [actStep_pending _ _ _ h1]
      simp
  · intro r hr
    unfold dummyForward at hr
    simp only [truthy, Bool.false_eq_true, if_false] at hr
    rcases h1 : runAttempts current_time_retry_policy env.now 1 env.timeFates with
      (⟨v, n⟩ | ⟨e, n⟩) | _
    · rw [actStep_ok _ _ _ h1] at hr
      rcases h2 : runAttempts simulate_work_retry_policy (simulate_work 3) 1 env.workFates
        with (⟨w, n2⟩ | ⟨e2, n2⟩) | _
      · rw [actStep_ok _ _ _ h2] at hr
        obtain rfl : (⟨v, none, w, wfId⟩ : DummyResult) = r :=
          (RunStatus.completed.injEq _ _).mp hr
        rfl
      · rw [actStep_err _ _ _ h2] at hr
        exact RunStatus.noConfusion hr
      · rw [actStep_pending _ _ _ h2] at hr
        exact RunStatus.noConfusion hr
    · rw [actStep_err _ _ _ h1] at hr
      exact RunStatus.noConfusion hr
    · rw [actStep_pending _ _ _ h1] at hr
      exact RunStatus.noConfusion hr

/-- Witness for C9: the conjuncts instantiated at a concrete successful
environment, the implication discharged at the run's actual result. -/
theorem dummy_message_falsy_witness :
    dummyForward "wf" none ⟨"t0", [AttemptFate.ok], [], [AttemptFate.ok]⟩ =
      dummyForward "wf" (some "") ⟨"t0", [AttemptFate.ok], [], [AttemptFate.ok]⟩ ∧
    (DummyResult.mk "t0" none (simulate_work 3) "wf").echo_result = none :=
  ⟨(dummy_message_falsy "wf" ⟨"t0", [AttemptFate.ok], [], [AttemptFate.ok]⟩).1,
    (dummy_message_falsy "wf" ⟨"t0", [AttemptFate.ok], [], [AttemptFate.ok]⟩).2.2
      ⟨"t0", none, simulate_work 3, "wf"⟩ rfl⟩

/-- Replay of one activity await agrees with the forward step that
produced the history: if the replay continuation agrees with the forward
continuation on the recorded tail, the whole step agrees. -/
lemma replayAct_actStep (name : String) (arg : ActArg) (p : RetryPolicy)
    (value : String) (fates : List AttemptFate) (kF : String → ℕ → RunOutput)
    (kR : String → List Resolution → List Command × RunStatus)
    (hk : ∀ v n, kR v (kF v n).history = ((kF v n).commands, (kF v n).status)) :
    replayAct name arg (actStep name arg p value fates kF).history kR =
      ((actStep name arg p value fates kF).commands,
        (actStep name arg p value fates kF).status) := by
  rcases h : runAttempts p value 1 fates with (⟨v, n⟩ | ⟨e, n⟩) | _
  · rw [actStep_ok _ _ _ h]
    simp only [replayAct, hk v n]
  · rw [actStep_err _ _ _ h]
    rfl
  · rw [actStep_pending _ _ _ h]
    rfl

/-- Replaying a prefix of the history yields a prefix of the forward
command sequence, one activity await at a time. -/
lemma replayAct_actStep_take (name : String) (arg : ActArg) (p : RetryPolicy)
    (value : String) (fates : List AttemptFate) (kF : String → ℕ → RunOutput)
    (kR : String → List Resolution → List Command × RunStatus)
    (hk : ∀ v n k, ∃ t, (kR v ((kF v n).history.take k)).1 ++ t = (kF v n).commands) :
    ∀ k, ∃ t,
      (replayAct name arg ((actStep name arg p value fates kF).history.take k) kR).1 ++ t =
        (actStep name arg p value fates kF).commands := by
  intro k
  rcases h : runAttempts p value 1 fates with (⟨v, n⟩ | ⟨e, n⟩) | _
  · rw [actStep_ok _ _ _ h]
    cases k with
    | zero => exact ⟨(kF v n).commands, rfl⟩
    | succ k =>
      obtain ⟨t, ht⟩ := hk v n k
      refine ⟨t, ?_⟩
      simp only [List.take_succ_cons, replayAct, List.cons_append, ht]
  · rw [actStep_err _ _ _ h]
    cases k with
    | zero => exact ⟨[Command.failWorkflow e], rfl⟩
    | succ k => exact ⟨[], rfl⟩
  · rw [actStep_pending _ _ _ h]
    cases k with
    | zero => exact ⟨[], rfl⟩
    | succ k => exact ⟨[], rfl⟩

/-- C6: replay determinism of `DummyWorkflow.run`.  `dummyReplay` is a
pure function of the input and the recorded history only — so replaying
the same history twice is definitionally the same computation — and
replaying the history a forward execution recorded reproduces exactly the
command sequence and status that forward execution produced; replaying
any prefix of length N of that history reproduces a prefix of the same
command sequence. -/
theorem dummy_replay_determinism (wfId : String) (message : Option String)
    (env : DummyEnv) :
    (dummyReplay wfId message (dummyForward wfId message env).history =
      ((dummyForward wfId message env).commands,
        (dummyForward wfId message env).status)) ∧
    (∀ k, ∃ t,
      (dummyReplay wfId message ((dummyForward wfId message env).history.take k)).1 ++ t =
        (dummyForward wfId message env).commands) := by
  constructor
  · unfold dummyForward dummyReplay
    apply replayAct_actStep
    intro t n
    by_cases hm : truthy message = true
    · rw [if_pos hm, if_pos hm]
      apply replayAct_actStep
      intro e n2
      apply replayAct_actStep
      intro w n3
      rfl
    · rw [if_neg hm, if_neg hm]
      apply replayAct_actStep
      intro w n2
      rfl
  · unfold dummyForward dummyReplay
    apply replayAct_actStep_take
    intro t n k
    by_cases hm : truthy message = true
    · rw [if_pos hm, if_pos hm]
      apply replayAct_actStep_take
      intro e n2 k2
      apply replayAct_actStep_take
      intro w n3 k3
      exact ⟨[], by simp⟩
    · rw [if_neg hm, if_neg hm]
      apply replayAct_actStep_take
      intro w n2 k2
      exact ⟨[], by simp⟩

/-- Witness for C6 at a concrete run: no message, both executed activities
succeeding on their first attempt. -/
theorem dummy_replay_determinism_witness :
    (dummyReplay "wf" none
        (dummyForward "wf" none ⟨"t0", [AttemptFate.ok], [], [AttemptFate.ok]⟩).history =
      ((dummyForward "wf" none ⟨"t0", [AttemptFate.ok], [], [AttemptFate.ok]⟩).commands,
        (dummyForward "wf" none ⟨"t0", [AttemptFate.ok], [], [AttemptFate.ok]⟩).status)) ∧
    (∀ k, ∃ t,
      (dummyReplay "wf" none
          ((dummyForward "wf" none
            ⟨"t0", [AttemptFate.ok], [], [AttemptFate.ok]⟩).history.take k)).1 ++ t =
        (dummyForward "wf" none ⟨"t0", [AttemptFate.ok], [], [AttemptFate.ok]⟩).commands) :=
  dummy_replay_determinism "wf" none ⟨"t0", [AttemptFate.ok], [], [AttemptFate.ok]⟩

/-- Every start-child command list has one command per message. -/
lemma startChildCmds_length (wfId : String) (msgs : List String) :
    ∀ i, (startChildCmds wfId i msgs).length = msgs.length := by
  induction msgs with
  | nil => intro i; rfl
  | cons m ms ih =>
    intro i
    simp [startChildCmds, ih (i + 1)]

/-- The k-th start-child command carries the id of the (i+k)-th child and
the k-th message. -/
lemma startChildCmds_get (wfId : String) (msgs : List String) :
    ∀ i k m, msgs[k]? = some m →
      (startChildCmds wfId i msgs)[k]? =
        some (ChainCommand.startChild (childWorkflowId wfId (i + k)) m) := by
  induction msgs with
  | nil =>
    intro i k m hm
    simp at hm
  | cons m0 ms ih =>
    intro i k m hm
    cases k with
    | zero =>
      simp at hm
      subst hm
      simp [startChildCmds]
    | succ k =>
      simp only [List.getElem?_cons_succ] at hm
      have := ih (i + 1) k m hm
      simp only [startChildCmds, List.getElem?_cons_succ]
      rwa [show i + 1 + k = i + (k + 1) by omega] at this

/-- Correctness of the chained loop body, generalized over the loop
counter and the accumulated results: when every remaining child completes,
the run completes with the accumulated results followed by one result per
message, and the commands are one start-child per message followed by the
completion. -/
lemma chainedGo_spec (wfId : String) (msgs : List String) :
    ∀ (envs : List DummyEnv) (i : ℕ) (acc : List DummyResult),
      msgs.length ≤ envs.length →
      (∀ k m env, msgs[k]? = some m → envs[k]? = some env →
        ∃ r, (dummyForward (childWorkflowId wfId (i + k)) (some m) env).status =
          RunStatus.completed r) →
      ∃ rs : List DummyResult,
        rs.length = msgs.length ∧
        chainedGo wfId i acc msgs envs =
          ⟨startChildCmds wfId i msgs ++
              [ChainCommand.completeWorkflow (acc.reverse ++ rs)],
            ChainStatus.completed (acc.reverse ++ rs)⟩ ∧
        ∀ k m env, msgs[k]? = some m → envs[k]? = some env →
          ∃ r, rs[k]? = some r ∧
            (dummyForward (childWorkflowId wfId (i + k)) (some m) env).status =
              RunStatus.completed r := by
  induction msgs with
  | nil =>
    intro envs i acc _ _
    refine ⟨[], rfl, ?_, ?_⟩
    · simp [chainedGo, startChildCmds]
    · intro k m env hm _
      simp at hm
  | cons m ms ih =>
    intro envs i acc hlen hok
    cases envs with
    | nil => simp at hlen
    | cons env envTail =>
      obtain ⟨r0, hr0⟩ := hok 0 m env (by simp) (by simp)
      have hlen2 : ms.length ≤ envTail.length := by simpa using hlen
      have hok2 : ∀ k m2 env2, ms[k]? = some m2 → envTail[k]? = some env2 →
          ∃ r, (dummyForward (childWorkflowId wfId (i + 1 + k)) (some m2) env2).status =
            RunStatus.completed r := by
        intro k m2 env2 hm2 he2
        have h := hok (k + 1) m2 env2 (by simpa using hm2) (by simpa using he2)
        rwa [show i + (k + 1) = i + 1 + k by omega] at h
      obtain ⟨rs, hlenrs, heq, hcorr⟩ := ih envTail (i + 1) (r0 :: acc) hlen2 hok2
      refine ⟨r0 :: rs, by simp [hlenrs], ?_, ?_⟩
      · have hzero : i + 0 = i := by omega
        rw [hzero] at hr0
        show chainedGo wfId i acc (m :: ms) (env :: envTail) = _
        unfold chainedGo
        rw [hr0]
        simp only [heq, startChildCmds, List.reverse_cons, List.append_assoc,
          List.cons_append, List.nil_append, List.singleton_append]
      · intro k m2 env2 hm2 he2
        cases k with
        | zero =>
          simp only [List.getElem?_cons_zero, Option.some.injEq] at hm2 he2
          subst hm2
          subst he2
          exact ⟨r0, by simp, by simpa using hr0⟩
        | succ k =>
          simp only [List.getElem?_cons_succ] at hm2 he2
          obtain ⟨r, hr, hst⟩ := hcorr k m2 env2 hm2 he2
          refine ⟨r, by simpa using hr, ?_⟩
          rwa [show i + 1 + k = i + (k + 1) by omega] at hst

/-- C7: when every child completes, `ChainedDummyWorkflow.run` starts
exactly one child `DummyWorkflow` per message, sequentially in list order
(each child resolved before the next start-child command is issued), the
k-th (0-based) child under id `wfId ++ "-child-" ++ toString k` with the
k-th message, and completes with the list of child results in the same
order, of length equal to the number of messages; for the empty message
list it completes with the empty list without starting any child. -/
theorem chained_dummy_spec (wfId : String) (messages : List String)
    (envs : List DummyEnv)
    (hlen : messages.length ≤ envs.length)
    (hok : ∀ k m env, messages[k]? = some m → envs[k]? = some env →
      ∃ r, (dummyForward (childWorkflowId wfId k) (some m) env).status =
        RunStatus.completed r) :
    ∃ rs : List DummyResult,
      rs.length = messages.length ∧
      chainedForward wfId messages envs =
        ⟨startChildCmds wfId 0 messages ++ [ChainCommand.completeWorkflow rs],
          ChainStatus.completed rs⟩ ∧
      (startChildCmds wfId 0 messages).length = messages.length ∧
      (∀ (k : ℕ) (m : String), messages[k]? = some m →
        (startChildCmds wfId 0 messages)[k]? =
          some (ChainCommand.startChild (wfId ++ "-child-" ++ toString k) m)) ∧
      (∀ k m env, messages[k]? = some m → envs[k]? = some env →
        ∃ r, rs[k]? = some r ∧
          (dummyForward (childWorkflowId wfId k) (some m) env).status =
            RunStatus.completed r) ∧
      (∀ envs2, chainedForward wfId [] envs2 =
        ⟨[ChainCommand.completeWorkflow []], ChainStatus.completed []⟩) := by
  have hok0 : ∀ k m env, messages[k]? = some m → envs[k]? = some env →
      ∃ r, (dummyForward (childWorkflowId wfId (0 + k)) (some m) env).status =
        RunStatus.completed r := by
    intro k m env hm he
    simpa using hok k m env hm he
  obtain ⟨rs, hlenrs, heq, hcorr⟩ := chainedGo_spec wfId messages envs 0 [] hlen hok0
  refine ⟨rs, hlenrs, ?_, startChildCmds_length wfId messages 0, ?_, ?_, fun envs2 => rfl⟩
  · simpa [chainedForward] using heq
  · intro k m hm
    have := startChildCmds_get wfId messages 0 k m hm
    simpa [childWorkflowId] using this
  · intro k m env hm he
    have := hcorr k m env hm he
    simpa using this

/-- Witness for C7: one message, one child, fully successful. -/
theorem chained_dummy_spec_witness :
    ∃ rs : List DummyResult,
      rs.length = (["a"] : List String).length ∧
      chainedForward "p" ["a"]
          [⟨"t0", [AttemptFate.ok], [AttemptFate.ok], [AttemptFate.ok]⟩] =
        ⟨startChildCmds "p" 0 ["a"] ++ [ChainCommand.completeWorkflow rs],
          ChainStatus.completed rs⟩ ∧
      (startChildCmds "p" 0 ["a"]).length = (["a"] : List String).length ∧
      (∀ (k : ℕ) (m : String), (["a"] : List String)[k]? = some m →
        (startChildCmds "p" 0 ["a"])[k]? =
          some (ChainCommand.startChild ("p" ++ "-child-" ++ toString k) m)) ∧
      (∀ k m env, (["a"] : List String)[k]? = some m →
        ([⟨"t0", [AttemptFate.ok], [AttemptFate.ok], [AttemptFate.ok]⟩] :
            List DummyEnv)[k]? = some env →
        ∃ r, rs[k]? = some r ∧
          (dummyForward (childWorkflowId "p" k) (some m) env).status =
            RunStatus.completed r) ∧
      (∀ envs2, chainedForward "p" [] envs2 =
        ⟨[ChainCommand.completeWorkflow []], ChainStatus.completed []⟩) :=
  chained_dummy_spec "p" ["a"]
    [⟨"t0", [AttemptFate.ok], [AttemptFate.ok], [AttemptFate.ok]⟩]
    (Nat.le_refl 1)
    (by
      intro k m env hm he
      cases k with
      | zero =>
        simp only [List.getElem?_cons_zero, Option.some.injEq] at hm he
        subst hm
        subst he
        exact ⟨⟨"t0", some "ECHO: a", simulate_work 3, childWorkflowId "p" 0⟩, rfl⟩
      | succ k => simp at hm)

/-- The run-r sequence numbers of an appended log segment concatenate. -/
lemma seqsFor_snoc (r run : String) (s : ℕ) (l : List (String × ℕ)) :
    seqsFor r (l ++ [(run, s)]) = seqsFor r l ++ (if run = r then [s] else []) := by
  by_cases h : run = r <;> simp [seqsFor, List.filterMap_append, h]

/-- Invariant of the journal under any serialized interleaving of appends:
for every run id, the assigned sequence numbers stay strictly increasing in
log order and bounded by the run's counter. -/
lemma applyAppends_invariant (ops : List String) :
    ∀ (j : Journal) (r : String),
      List.Pairwise (· < ·) (seqsFor r j.log) →
      (∀ s ∈ seqsFor r j.log, s ≤ j.seqCounter r) →
      List.Pairwise (· < ·) (seqsFor r (applyAppends j ops).log) ∧
      ∀ s ∈ seqsFor r (applyAppends j ops).log, s ≤ (applyAppends j ops).seqCounter r := by
  induction ops with
  | nil =>
    intro j r h1 h2
    exact ⟨h1, h2⟩
  | cons run ops ih =>
    intro j r h1 h2
    apply ih
    · show List.Pairwise (· < ·) (seqsFor r (j.log ++ [(run, j.seqCounter run + 1)]))
      rw [seqsFor_snoc]
      by_cases hr : run = r
      · subst hr
        rw [if_pos rfl]
        refine List.pairwise_append.mpr ⟨h1, List.pairwise_singleton _ _, ?_⟩
        intro a ha b hb
        simp only [List.mem_singleton] at hb
        subst hb
        exact Nat.lt_succ_of_le (h2 a ha)
      · rw [if_neg hr]
        simpa using h1
    · show ∀ s ∈ seqsFor r (j.log ++ [(run, j.seqCounter run + 1)]),
        s ≤ (if r = run then j.seqCounter run + 1 else j.seqCounter r)
      intro s hs
      rw [seqsFor_snoc] at hs
      rcases List.mem_append.mp hs with hmem | hmem
      · by_cases hr : r = run
        · rw [if_pos hr]
          exact le_trans (h2 s hmem) (by rw [hr]; exact Nat.le_succ _)
        · rw [if_neg hr]
          exact h2 s hmem
      · by_cases hr : run = r
        · rw [if_pos hr] at hmem
          simp only [List.mem_singleton] at hmem
          rw [if_pos hr.symm]
          exact le_of_eq hmem
        · rw [if_neg hr] at hmem
          exact absurd hmem (List.not_mem_nil s)

/-- C8: under any serialized interleaving of append calls (append is
atomic, so a concurrent execution is some interleaving), the sequence
numbers the journal assigns for a fixed run id are pairwise strictly
increasing in append order — hence no two appends for the same run id ever
receive the same sequence number — and two successive appends for the same
run id return strictly increasing numbers. -/
theorem journal_append_single_writer (ops : List String) (r : String) :
    List.Pairwise (· < ·) (seqsFor r (applyAppends emptyJournal ops).log) ∧
    (seqsFor r (applyAppends emptyJournal ops).log).Nodup ∧
    ∀ j : Journal, (journalAppend j r).2 < (journalAppend (journalAppend j r).1 r).2 := by
  have h := applyAppends_invariant ops emptyJournal r
    (by simp [seqsFor, emptyJournal]) (by simp [seqsFor, emptyJournal])
  refine ⟨h.1, h.1.imp (fun hab => Nat.ne_of_lt hab), ?_⟩
  intro j
  simp [journalAppend]

/-- Witness for C8 at a concrete interleaving of two writers: appends for
runs "a", "b", "a". -/
theorem journal_append_single_writer_witness :
    List.Pairwise (· < ·) (seqsFor "a" (applyAppends emptyJournal ["a", "b", "a"]).log) ∧
    (seqsFor "a" (applyAppends emptyJournal ["a", "b", "a"]).log).Nodup ∧
    ∀ j : Journal, (journalAppend j "a").2 < (journalAppend (journalAppend j "a").1 "a").2 :=
  journal_append_single_writer ["a", "b", "a"] "a"

/-- C10: the HTTP response's `workflow_id` for POST /dummy is
`"dummy-workflow-" ++ (message when truthy, else "test")`, but the
workflow is started under a different id: `start_workflow` treats the
response id only as a suffix, producing
`"atlas-" ++ env ++ "-" ++ typeName ++ "-" ++ responseId` (for the route,
`typeName` is `DummyWorkflow.run.__name__`), so the response id is a
strict suffix of — and never equal to — the actual workflow id. -/
theorem dummy_route_id_spec (env ty : String) (message : Option String) :
    dummy_route_workflow_id message =
      "dummy-workflow-" ++ (if truthy message then message.getD "" else "test") ∧
    start_workflow_id env ty (dummy_route_workflow_id message) =
      ("atlas-" ++ env ++ "-" ++ ty ++ "-") ++ dummy_route_workflow_id message ∧
    ("atlas-" ++ env ++ "-" ++ ty ++ "-") ≠ "" ∧
    start_workflow_id env ty (dummy_route_workflow_id message) ≠
      dummy_route_workflow_id message := by
  have hne : dummy_route_workflow_id message ≠ "" := by
    unfold dummy_route_workflow_id
    intro h
    have h2 := congrArg String.length h
    simp [String.length_append,
      show ("dummy-workflow-" : String).length = 15 from rfl] at h2
  have heq : start_workflow_id env ty (dummy_route_workflow_id message) =
      ("atlas-" ++ env ++ "-" ++ ty ++ "-") ++ dummy_route_workflow_id message := by
    unfold start_workflow_id
    rw [if_pos hne]
    simp [ get_workflow_id_prefix, String.append_assoc]
  have hpne : ("atlas-" ++ env ++ "-" ++ ty ++ "-") ≠ "" := by
    intro h
    have h2 := congrArg String.length h
    simp [String.length_append, show ("-" : String).length = 1 from rfl] at h2
  refine ⟨rfl, heq, hpne, ?_⟩
  intro h
  rw [heq] at h
  have h2 := congrArg String.length h
  simp [String.length_append, show ("-" : String).length = 1 from rfl] at h2

/-- Witness for C10 at environment "dev", type name "run" (the `__name__`
of `DummyWorkflow.run`) and message "hi". -/
theorem dummy_route_id_spec_witness :
    dummy_route_workflow_id (some "hi") =
      "dummy-workflow-" ++ (if truthy (some "hi") then (some "hi").getD "" else "test") ∧
    start_workflow_id "dev" "run" (dummy_route_workflow_id (some "hi")) =
      ("atlas-" ++ "dev" ++ "-" ++ "run" ++ "-") ++ dummy_route_workflow_id (some "hi") ∧
    ("atlas-" ++ "dev" ++ "-" ++ "run" ++ "-") ≠ "" ∧
    start_workflow_id "dev" "run" (dummy_route_workflow_id (some "hi")) ≠
      dummy_route_workflow_id (some "hi") :=
  dummy_route_id_spec "dev" "run" (some "hi")
